import Mathlib

/-!
# Verification of the subvenciones-v1 capture / filter / delivery core

Shallow embedding of the rule-evaluation engine
(`backend/app/shared/filters.py`), the BDNS / PLACSP capture
orchestrators (`backend/app/services/bdns_service.py`,
`backend/app/services/placsp_service.py`) and the webhook delivery
subsystem (`backend/app/services/n8n_service_enhanced.py`,
`backend/app/models/webhook_history.py`).

Floats are modelled as rationals (`ℚ`), Python "key in text" substring
tests as a structural search over the strings' character lists, and the
external regular-expression library (`re`) as an oracle function
`String → String → Option (List String)` returning `none` exactly when
the library would raise `re.error` for the pattern.
-/

namespace Subvenciones

/-- Structural substring search over character lists. -/
def listIsInfix (needle : List Char) : List Char → Bool
  | [] => needle.isEmpty
  | c :: rest => needle.isPrefixOf (c :: rest) || listIsInfix needle rest

/-- Python's `needle in haystack` substring test. -/
def pyContains (needle haystack : String) : Bool :=
  listIsInfix needle.data haystack.data

/-- Python's `str.lower()` (character-wise; `Char.toLower` is the
ASCII-exact approximation of Unicode lowercasing, which no searched
keyword of the sources distinguishes). -/
def strToLower (s : String) : String :=
  ⟨s.data.map Char.toLower⟩

/-! ## Rule engine data model (`filters.py`)

`FilterType` is the `Enum` of `filters.py` together with the `value`
payload of `FilterRule`, whose shape depends on the kind (keyword list,
regex pattern, amount-criteria dict, department list).  `SECTOR` is a
declared variant with no payload used by any evaluator branch. -/

/-- The `min` / `max` keys of an `AMOUNT` rule's criteria dict.
`none` models an absent key (`criteria.get('min', 0)` /
`criteria.get('max', float('inf'))`). -/
structure AmountCriteria where
  min : Option ℚ := none
  max : Option ℚ := none
deriving DecidableEq

inductive FilterType where
  | INCLUDE (keywords : List String)
  | EXCLUDE (keywords : List String)
  | REGEX (pattern : String)
  | AMOUNT (criteria : AmountCriteria)
  | SECTOR
  | DEPARTMENT (departments : List String)
deriving DecidableEq

/-- `FilterRule` dataclass (the `value` payload lives inside
`filter_type`). -/
structure FilterRule where
  name : String
  filter_type : FilterType
  weight : ℚ := 1
  required : Bool := false
deriving DecidableEq

/-- `FilterProfile` dataclass (`created_at` omitted: it never feeds the
evaluation). -/
structure FilterProfile where
  name : String
  description : String := ""
  rules : List FilterRule
  min_score : ℚ := 0.5
deriving DecidableEq

/-- The searchable fields of the `grant_info` dict read by
`evaluate_grant` (`title`, `department`, `section`, `epigraph`). -/
structure GrantInfo where
  title : String := ""
  department : String := ""
  sectionName : String := ""
  epigraph : String := ""
deriving DecidableEq

/-- The `extracted_info` dict: `amounts` is the list of amount texts
consumed by `_apply_amount_filter`; `extraText` models the concatenation
`" " + " ".join(str(v) for v in values)` that `evaluate_grant` appends to
the haystack for every list-valued entry of the dict (amounts
included). -/
structure ExtractedInfo where
  amounts : List String := []
  extraText : String := ""
deriving DecidableEq

/-- `GrantFilter._apply_include_filter`. -/
def applyIncludeFilter (text : String) (keywords : List String) :
    Bool × ℚ × List String :=
  let textLower := strToLower text
  let found := keywords.filter (fun kw => pyContains (strToLower kw) textLower)
  let score : ℚ := if keywords = [] then 0 else (found.length : ℚ) / (keywords.length : ℚ)
  (decide (0 < found.length), score, found)

/-- `GrantFilter._apply_exclude_filter`. -/
def applyExcludeFilter (text : String) (keywords : List String) :
    Bool × ℚ × List String :=
  let textLower := strToLower text
  let found := keywords.filter (fun kw => pyContains (strToLower kw) textLower)
  (decide (found.length = 0), if found = [] then 1 else 0, found)

/-- `GrantFilter._apply_regex_filter`; `regexFindall` is the oracle for
`re.findall(pattern, text, re.IGNORECASE)`, `none` modelling a raised
`re.error` (caught in the source and turned into `(False, 0.0, [])`). -/
def applyRegexFilter (regexFindall : String → String → Option (List String))
    (text pattern : String) : Bool × ℚ × List String :=
  match regexFindall pattern text with
  | some found => (decide (0 < found.length), Min.min ((found.length : ℚ) / 3) 1, found)
  | none => (false, 0, [])

/-- Python test `min_amount <= amount <= max_amount` with
`max_amount = float('inf')` when the `max` key is absent. -/
def amountInRange (minA : ℚ) (maxA : Option ℚ) (a : ℚ) : Bool :=
  decide (minA ≤ a) && (match maxA with | some m => decide (a ≤ m) | none => true)

/-- Score of an in-range amount:
`max(0.3, 1.0 - abs(amount - mid_point) / (max_amount - min_amount))`.
When the `max` key is absent the float computation runs through
`float('inf')` and `nan`, and Python's `max(0.3, nan)` returns `0.3`. -/
def amountScore (minA : ℚ) (maxA : Option ℚ) (a : ℚ) : ℚ :=
  match maxA with
  | some m => Max.max 0.3 (1 - |a - (minA + m) / 2| / (m - minA))
  | none => 0.3

/-- `GrantFilter._apply_amount_filter`; `extractNums` is the oracle for
the number-extraction regex plus Spanish-format float conversion applied
to one amount text (`ValueError` entries already dropped). -/
def applyAmountFilter (extractNums : String → List ℚ)
    (extracted : ExtractedInfo) (criteria : AmountCriteria) : Bool × ℚ :=
  if extracted.amounts = [] then (false, 0)
  else
    let foundAmounts := (extracted.amounts.map extractNums).flatten
    if foundAmounts = [] then (false, 0)
    else
      let minA := criteria.min.getD 0
      match foundAmounts.find? (amountInRange minA criteria.max) with
      | some a => (true, amountScore minA criteria.max a)
      | none => (false, 0)

/-- `GrantFilter._apply_department_filter` (reads
`grant_info.get('department', '')`). -/
def applyDepartmentFilter (grantDept : String) (departments : List String) :
    Bool × ℚ × List String :=
  let deptLower := strToLower grantDept
  let found := departments.filter (fun kw => pyContains (strToLower kw) deptLower)
  (decide (0 < found.length),
   if departments = [] then 0 else (found.length : ℚ) / (departments.length : ℚ),
   found)

/-- The haystack built by `evaluate_grant`:
`" ".join([title, department, section, epigraph])`, extended with the
`extracted_info` text when that dict is supplied (and truthy). -/
def fullText (gi : GrantInfo) (extracted : Option ExtractedInfo) : String :=
  let base := String.intercalate " " [gi.title, gi.department, gi.sectionName, gi.epigraph]
  match extracted with
  | some e => base ++ e.extraText
  | none => base

/-- One entry of `result['rule_results']`. -/
structure RuleResult where
  rule_name : String
  passed : Bool
  score : ℚ
  weight : ℚ
  required : Bool
  found : List String
deriving DecidableEq

/-- Per-rule dispatch of `evaluate_grant` (the `if`/`elif` chain over
`rule.filter_type`).  A `SECTOR` rule matched by no branch; an `AMOUNT`
rule reaching its branch only when `extracted_info` is supplied, so both
leave the initial `passed = False, score = 0.0` record untouched. -/
def evalRule (regexFindall : String → String → Option (List String))
    (extractNums : String → List ℚ) (ftext : String) (gi : GrantInfo)
    (extracted : Option ExtractedInfo) (rule : FilterRule) : RuleResult :=
  let base : RuleResult :=
    ⟨rule.name, false, 0, rule.weight, rule.required, []⟩
  match rule.filter_type with
  | .INCLUDE ks =>
    let r := applyIncludeFilter ftext ks
    { base with passed := r.1, score := r.2.1, found := r.2.2 }
  | .EXCLUDE ks =>
    let r := applyExcludeFilter ftext ks
    { base with passed := r.1, score := r.2.1, found := r.2.2 }
  | .REGEX pat =>
    let r := applyRegexFilter regexFindall ftext pat
    { base with passed := r.1, score := r.2.1, found := r.2.2 }
  | .AMOUNT criteria =>
    match extracted with
    | some e =>
      let r := applyAmountFilter extractNums e criteria
      { base with passed := r.1, score := r.2 }
    | none => base
  | .SECTOR => base
  | .DEPARTMENT ds =>
    let r := applyDepartmentFilter gi.department ds
    { base with passed := r.1, score := r.2.1, found := r.2.2 }

/-- Accumulator of the rule loop of `evaluate_grant`. -/
structure EvalAcc where
  total_weight : ℚ
  weighted_score_sum : ℚ
  required_rules_passed : ℕ
  required_rules_total : ℕ
  rule_results : List RuleResult
deriving DecidableEq

/-- The rule loop of `evaluate_grant`: `total_weight` accumulates every
rule's weight; `weighted_score_sum` only the passed rules' `score ×
weight`. -/
def evalRules (regexFindall : String → String → Option (List String))
    (extractNums : String → List ℚ) (ftext : String) (gi : GrantInfo)
    (extracted : Option ExtractedInfo) : List FilterRule → EvalAcc
  | [] => ⟨0, 0, 0, 0, []⟩
  | rule :: rs =>
    let rr := evalRule regexFindall extractNums ftext gi extracted rule
    let acc := evalRules regexFindall extractNums ftext gi extracted rs
    ⟨rule.weight + acc.total_weight,
     (if rr.passed then rr.score * rule.weight else 0) + acc.weighted_score_sum,
     (if rule.required && rr.passed then 1 else 0) + acc.required_rules_passed,
     (if rule.required then 1 else 0) + acc.required_rules_total,
     rr :: acc.rule_results⟩

/-- The fields of the result dict of `evaluate_grant` that downstream
code reads (`weighted_score` duplicates `total_score` in the source;
`grant_id`, `profile_used`, `matches_found` and `evaluation_time` are
bookkeeping omitted here). -/
structure EvalResult where
  passed : Bool
  total_score : ℚ
  min_score_required : ℚ
  rule_results : List RuleResult
  required_rules_passed : ℕ
  required_rules_total : ℕ
deriving DecidableEq

/-- `GrantFilter.evaluate_grant` on a resolved profile (the name lookup
raising `ValueError` on an unknown profile is outside the embedding). -/
def evaluateGrant (regexFindall : String → String → Option (List String))
    (extractNums : String → List ℚ) (profile : FilterProfile)
    (gi : GrantInfo) (extracted : Option ExtractedInfo) : EvalResult :=
  let ftext := fullText gi extracted
  let acc := evalRules regexFindall extractNums ftext gi extracted profile.rules
  let totalScore : ℚ :=
    if 0 < acc.total_weight then acc.weighted_score_sum / acc.total_weight else 0
  let requiredPassed : Bool :=
    decide (acc.required_rules_total = 0) ||
      decide (acc.required_rules_passed = acc.required_rules_total)
  ⟨requiredPassed && decide (profile.min_score ≤ totalScore),
   totalScore, profile.min_score, acc.rule_results,
   acc.required_rules_passed, acc.required_rules_total⟩

/-! ## Delivery subsystem (`n8n_service_enhanced.py`) -/

/-- `N8nServiceEnhanced._calculate_retry_delay` (the service is built
with `base_delay = 2`, `max_delay = 60`). -/
def calculateRetryDelay (baseDelay maxDelay attempt : ℕ) : ℕ :=
  Min.min (baseDelay * 2 ^ (attempt - 1)) maxDelay

/-- The columns of the `webhook_history` row that the retry loop writes
(`models/webhook_history.py`); `next_retry_delay` models
`next_retry_at = datetime.now() + timedelta(seconds=delay)` by its
`delay` offset, and `created_at` / `sent_at` / response snapshots are
wall-clock or transport data kept outside the embedding. -/
structure WebhookHistory where
  grant_id : String
  attempt_number : ℕ := 1
  max_retries : ℕ := 3
  status : String
  http_status_code : Option ℕ := none
  next_retry_delay : Option ℕ := none
deriving DecidableEq

/-- What one `httpx` POST of the retry loop yields: a response with some
HTTP status (`raise_for_status` then raises `HTTPStatusError` iff
`400 ≤ status`), a transport error (`RequestError` / timeout), or any
other exception. -/
inductive TransportOutcome where
  | response (status : ℕ)
  | requestError
  | unexpectedError
deriving DecidableEq

/-- The attempt loop of `N8nServiceEnhanced.send_grant_with_retry`
(`for attempt in range(1, max_retries + 1)`), driven by the outcome the
transport yields for each attempt number.  The single history row
created before the loop is mutated in place: on success the status code
and status are overwritten (the source does not touch `attempt_number`
there), on a retryable failure `attempt_number`, `status = 'retrying'`
and the backoff schedule are overwritten, on a terminal failure
`status = 'failed'`.  `fuel` counts the remaining loop iterations; the
fall-through result for an empty loop is the final
"Max retries exceeded" return. -/
def sendLoop (outcome : ℕ → TransportOutcome) (maxRetries : ℕ) :
    ℕ → ℕ → WebhookHistory → Bool × WebhookHistory
  | 0, _, h => (false, h)
  | fuel + 1, attempt, h =>
    match outcome attempt with
    | .response st =>
      if st < 400 then
        (true, { h with status := "success", http_status_code := some st })
      else if attempt < maxRetries ∧ 500 ≤ st then
        sendLoop outcome maxRetries fuel (attempt + 1)
          { h with attempt_number := attempt, http_status_code := some st,
                   status := "retrying",
                   next_retry_delay := some (calculateRetryDelay 2 60 attempt) }
      else
        (false, { h with attempt_number := attempt, http_status_code := some st,
                         status := "failed" })
    | .requestError =>
      if attempt < maxRetries then
        sendLoop outcome maxRetries fuel (attempt + 1)
          { h with attempt_number := attempt, status := "retrying",
                   next_retry_delay := some (calculateRetryDelay 2 60 attempt) }
      else
        (false, { h with attempt_number := attempt, status := "failed" })
    | .unexpectedError =>
      (false, { h with attempt_number := attempt, status := "failed" })

/-- `N8nServiceEnhanced.send_grant_with_retry` acting on the
`webhook_history` table (a list of rows): when the grant exists, exactly
one `pending` row is inserted before the loop and that same row is then
updated in place, so the final table is the old rows followed by the
final state of the new row; when the grant is not found the service
returns an error without touching the table. -/
def sendGrantWithRetry (outcome : ℕ → TransportOutcome) (grantFound : Bool)
    (grantId : String) (maxRetries : ℕ) (history : List WebhookHistory) :
    Bool × List WebhookHistory :=
  if grantFound then
    let h0 : WebhookHistory :=
      { grant_id := grantId, attempt_number := 1, max_retries := maxRetries,
        status := "pending" }
    let r := sendLoop outcome maxRetries maxRetries 1 h0
    (r.1, history ++ [r.2])
  else
    (false, history)

/-! ## BDNS capture (`bdns_service.py`, models in `shared/bdns_models.py`) -/

/-- `BDNSDocument` (the fields `_create_grant` reads). -/
structure BDNSDocument where
  id : ℕ
  nombreFic : String := ""
  descripcion : Option String := none
deriving DecidableEq

/-- `BDNSAnnouncement` (the fields `_create_grant` reads). -/
structure BDNSAnnouncement where
  url : Option String := none
  cve : Option String := none
deriving DecidableEq

/-- The fields of `BDNSConvocatoriaDetail` consumed by
`_check_nonprofit`, `_should_update` and the PDF-URL resolution.
`tiposBeneficiarios` holds the beneficiary descriptions; the optional
lists `documentos` / `anuncios` are modelled with `[]` for `None`
(both are falsy in every test the source performs). -/
structure BDNSConvocatoriaDetail where
  codigoBDNS : String
  descripcion : String
  descripcionFinalidad : Option String := none
  tiposBeneficiarios : List String := []
  abierto : Option Bool := none
  documentos : List BDNSDocument := []
  anuncios : List BDNSAnnouncement := []
  urlBasesReguladoras : Option String := none
deriving DecidableEq

/-- The URL the source builds for an attached BDNS document. -/
def bdnsDocUrl (doc : BDNSDocument) : String :=
  "https://www.infosubvenciones.es/bdnstrans/api/documento/" ++ toString doc.id

/-- The PDF-URL priority chain of `BDNSService._create_grant` (repeated
verbatim in `_update_grant`): PRIORITY 1 the first attached document's
constructed URL, PRIORITY 2 the first announcement's URL when that URL
is truthy, PRIORITY 3 the regulatory-base URL when truthy. -/
def resolvePdfUrl (d : BDNSConvocatoriaDetail) : Option String :=
  let bdnsDocs := d.documentos.map bdnsDocUrl
  let pdf1 : Option String :=
    match bdnsDocs with
    | u :: _ => some u
    | [] => none
  let pdf2 : Option String :=
    match pdf1 with
    | some u => some u
    | none =>
      match d.anuncios with
      | a :: _ => match a.url with
        | some u => if u ≠ "" then some u else none
        | none => none
      | [] => none
  match pdf2 with
  | some u => some u
  | none =>
    match d.urlBasesReguladoras with
    | some u => if u ≠ "" then some u else none
    | none => none

/-- The statistics dict shared by the capture runs (`total_fetched`,
`total_nonprofit`, `total_new`, `total_updated`, `total_skipped`,
`total_errors`; `pages_processed` is PLACSP-only). -/
structure CaptureStats where
  total_fetched : ℕ := 0
  total_nonprofit : ℕ := 0
  total_new : ℕ := 0
  total_updated : ℕ := 0
  total_skipped : ℕ := 0
  total_errors : ℕ := 0
  pages_processed : ℕ := 0
deriving DecidableEq

/-- The slice of the parsed CODICE entry dict that drives the capture
counters, bundled with the store's answer to the `PLACSP-<id>` dedup
lookup.  `updated` is `none` when the `updated` key is absent or falsy,
`some none` when the Atom date fails to parse (logged, no stop flag),
and `some (some t)` for a parsed timestamp.  A missing title is covered
by the `parseFailure` case below. -/
structure PLACSPData where
  id : Option String := none
  title : String := ""
  department : Option String := none
  updated : Option (Option ℤ) := none
  existing : Bool := false
deriving DecidableEq

/-- Per-entry environment of the PLACSP loop: `parse_entry` (or any
other step of the per-entry `try` body) raised, or yielded data. -/
inductive PLACSPEntry where
  | parseFailure
  | parsed (d : PLACSPData)
deriving DecidableEq

/-- The `grant_info` dict the PLACSP service hands to the filter
engine. -/
def placspGrantInfo (d : PLACSPData) : GrantInfo :=
  { title := d.title, department := d.department.getD "",
    sectionName := "", epigraph := "" }

/-- The `test_placsp` profile installed by
`GrantFilter._init_default_profiles` and used by the PLACSP capture. -/
def testPlacspProfile : FilterProfile :=
  { name := "test_placsp",
    description := "Perfil de prueba para capturar todo de PLACSP",
    rules := [{ name := "generic_terms",
                filter_type := .INCLUDE ["contrato", "suministro", "servicio",
                                         "obra", "acuerdo marco", "licitación"],
                weight := 1.0, required := true }],
    min_score := 0.1 }

/-- Inner-loop body of `PLACSPService.capture_recent_grants` for one
entry, threading the sticky `stop_processing` flag: the flag is set by
any entry older than the cutoff and never reset within the page, and
every entry seen while it is set is skipped (counted only in
`total_fetched`, or in `total_errors` when parsing raised first).  A
passing entry is saved by `_save_grant`, which silently neither inserts
nor updates when the entry has no id. -/
def placspEntryStep (regexFindall : String → String → Option (List String))
    (extractNums : String → List ℚ) (cutoff : ℤ)
    (acc : CaptureStats × Bool) (e : PLACSPEntry) : CaptureStats × Bool :=
  let s := { acc.1 with total_fetched := acc.1.total_fetched + 1 }
  match e with
  | .parseFailure => ({ s with total_errors := s.total_errors + 1 }, acc.2)
  | .parsed d =>
    let stop := acc.2 ||
      (match d.updated with
       | some (some t) => decide (t < cutoff)
       | _ => false)
    if stop then (s, stop)
    else if (evaluateGrant regexFindall extractNums testPlacspProfile
              (placspGrantInfo d) none).passed then
      let s := { s with total_nonprofit := s.total_nonprofit + 1 }
      match d.id with
      | none => (s, stop)
      | some _ =>
        if d.existing then ({ s with total_updated := s.total_updated + 1 }, stop)
        else ({ s with total_new := s.total_new + 1 }, stop)
    else
      ({ s with total_skipped := s.total_skipped + 1 }, stop)

/-- Page loop of `PLACSPService.capture_recent_grants`: the feed is a
list of pages, `fetch_feed` for page `idx` yields its entries and a next
link exactly when a further page exists; the loop breaks on an empty
page, on a set stop flag after a page, or when the next link is absent,
and `fuel` is the `max_pages` safety bound. -/
def placspLoop (regexFindall : String → String → Option (List String))
    (extractNums : String → List ℚ) (cutoff : ℤ)
    (pages : List (List PLACSPEntry)) : ℕ → ℕ → CaptureStats → CaptureStats
  | 0, _, s => s
  | fuel + 1, idx, s =>
    let entries := pages.getD idx []
    let s := { s with pages_processed := s.pages_processed + 1 }
    if entries = [] then s
    else
      let r := entries.foldl (placspEntryStep regexFindall extractNums cutoff) (s, false)
      if r.2 then r.1
      else if idx + 1 < pages.length then
        placspLoop regexFindall extractNums cutoff pages fuel (idx + 1) r.1
      else r.1

/-- `PLACSPService.capture_recent_grants` over a feed whose every page
fetch succeeds, with the `max_pages` bound (default 10); the general
run, where a `fetch_feed` call may also raise, is
`captureRecentGrantsPLACSPFull` below, of which this is the
all-fetches-succeed special case (`placspLoopFull_map_fetched`). -/
def captureRecentGrantsPLACSP (regexFindall : String → String → Option (List String))
    (extractNums : String → List ℚ) (cutoff : ℤ)
    (pages : List (List PLACSPEntry)) (maxPages : ℕ) : CaptureStats :=
  placspLoop regexFindall extractNums cutoff pages maxPages 0 {}

/-- A regex oracle whose every pattern is invalid, and a number oracle
finding nothing: concrete environments for closed evaluations. -/
def noRegex : String → String → Option (List String) := fun _ _ => none

def noNums : String → List ℚ := fun _ => []

/-! ## Rule-loop accumulator lemmas -/

theorem evalRules_total_weight (rf : String → String → Option (List String))
    (ex : String → List ℚ) (ft : String) (gi : GrantInfo)
    (e : Option ExtractedInfo) (rs : List FilterRule) :
    (evalRules rf ex ft gi e rs).total_weight = (rs.map FilterRule.weight).sum := by
  induction rs with
  | nil => simp [evalRules]
  | cons r rs ih => simp [evalRules, ih]

theorem evalRules_weighted_sum (rf : String → String → Option (List String))
    (ex : String → List ℚ) (ft : String) (gi : GrantInfo)
    (e : Option ExtractedInfo) (rs : List FilterRule) :
    (evalRules rf ex ft gi e rs).weighted_score_sum =
      ((rs.filter fun r => (evalRule rf ex ft gi e r).passed).map
        fun r => (evalRule rf ex ft gi e r).score * r.weight).sum := by
  induction rs with
  | nil => simp [evalRules]
  | cons r rs ih =>
    by_cases hp : (evalRule rf ex ft gi e r).passed <;>
      simp [evalRules, List.filter_cons, hp, ih]

theorem evalRules_req_total (rf : String → String → Option (List String))
    (ex : String → List ℚ) (ft : String) (gi : GrantInfo)
    (e : Option ExtractedInfo) (rs : List FilterRule) :
    (evalRules rf ex ft gi e rs).required_rules_total =
      (rs.filter fun r => r.required).length := by
  induction rs with
  | nil => simp [evalRules]
  | cons r rs ih =>
    by_cases hq : r.required <;> simp [evalRules, List.filter_cons, hq, ih] <;> omega

theorem evalRules_req_passed (rf : String → String → Option (List String))
    (ex : String → List ℚ) (ft : String) (gi : GrantInfo)
    (e : Option ExtractedInfo) (rs : List FilterRule) :
    (evalRules rf ex ft gi e rs).required_rules_passed =
      (rs.filter fun r => r.required && (evalRule rf ex ft gi e r).passed).length := by
  induction rs with
  | nil => simp [evalRules]
  | cons r rs ih =>
    by_cases hq : r.required && (evalRule rf ex ft gi e r).passed <;>
      simp [evalRules, List.filter_cons, hq, ih] <;> omega

theorem evalRules_results (rf : String → String → Option (List String))
    (ex : String → List ℚ) (ft : String) (gi : GrantInfo)
    (e : Option ExtractedInfo) (rs : List FilterRule) :
    (evalRules rf ex ft gi e rs).rule_results = rs.map (evalRule rf ex ft gi e) := by
  induction rs with
  | nil => simp [evalRules]
  | cons r rs ih => simp [evalRules, ih]

/-- The boolean `required_rules_total == 0 or required_rules_passed ==
required_rules_total` computed by `evaluate_grant` is exactly "every
required rule passed". -/
theorem required_ok_eq_all (rf : String → String → Option (List String))
    (ex : String → List ℚ) (ft : String) (gi : GrantInfo)
    (e : Option ExtractedInfo) (rs : List FilterRule) :
    (decide ((evalRules rf ex ft gi e rs).required_rules_total = 0) ||
      decide ((evalRules rf ex ft gi e rs).required_rules_passed =
        (evalRules rf ex ft gi e rs).required_rules_total)) =
      ((rs.filter fun r => r.required).all fun r => (evalRule rf ex ft gi e r).passed) := by
  rw [evalRules_req_total, evalRules_req_passed]
  have hff : (rs.filter fun r => r.required && (evalRule rf ex ft gi e r).passed) =
      ((rs.filter fun r => r.required).filter fun r => (evalRule rf ex ft gi e r).passed) := by
    rw [List.filter_filter]
    exact List.filter_congr fun r _ => by rw [Bool.and_comm]
  rw [hff]
  set L := rs.filter fun r => r.required with hL
  cases hall : L.all fun r => (evalRule rf ex ft gi e r).passed with
  | true =>
    have hsel : (L.filter fun r => (evalRule rf ex ft gi e r).passed) = L :=
      List.filter_eq_self.mpr (List.all_eq_true.mp hall)
    simp [hsel]
  | false =>
    have hnall : ¬ ∀ r ∈ L, (evalRule rf ex ft gi e r).passed = true := by
      rw [← List.all_eq_true, hall]
      exact Bool.false_ne_true
    push_neg at hnall
    obtain ⟨r, hrL, hrf⟩ := hnall
    have hlen : (L.filter fun r => (evalRule rf ex ft gi e r).passed).length < L.length := by
      refine Nat.lt_of_le_of_ne (List.Sublist.length_le (List.filter_sublist L)) ?_
      intro hEq
      exact hrf (List.filter_eq_self.mp ((List.filter_sublist L).eq_of_length hEq) r hrL)
    have hL0 : L.length ≠ 0 := by omega
    simp only [Bool.or_eq_false_iff, decide_eq_false_iff_not]
    exact ⟨hL0, by omega⟩

/-- Unfolding of the `total_score` field of `evaluate_grant`. -/
theorem evaluateGrant_total_score_def (rf : String → String → Option (List String))
    (ex : String → List ℚ) (profile : FilterProfile) (gi : GrantInfo)
    (e : Option ExtractedInfo) :
    (evaluateGrant rf ex profile gi e).total_score =
      (if 0 < (evalRules rf ex (fullText gi e) gi e profile.rules).total_weight
       then (evalRules rf ex (fullText gi e) gi e profile.rules).weighted_score_sum /
         (evalRules rf ex (fullText gi e) gi e profile.rules).total_weight
       else 0) := rfl

/-- Unfolding of the `passed` field of `evaluate_grant`. -/
theorem evaluateGrant_passed_def (rf : String → String → Option (List String))
    (ex : String → List ℚ) (profile : FilterProfile) (gi : GrantInfo)
    (e : Option ExtractedInfo) :
    (evaluateGrant rf ex profile gi e).passed =
      ((decide ((evalRules rf ex (fullText gi e) gi e profile.rules).required_rules_total = 0) ||
        decide ((evalRules rf ex (fullText gi e) gi e profile.rules).required_rules_passed =
          (evalRules rf ex (fullText gi e) gi e profile.rules).required_rules_total)) &&
        decide (profile.min_score ≤ (evaluateGrant rf ex profile gi e).total_score)) := rfl

/-- Unfolding of the `rule_results` field of `evaluate_grant`. -/
theorem evaluateGrant_rule_results_def (rf : String → String → Option (List String))
    (ex : String → List ℚ) (profile : FilterProfile) (gi : GrantInfo)
    (e : Option ExtractedInfo) :
    (evaluateGrant rf ex profile gi e).rule_results =
      (evalRules rf ex (fullText gi e) gi e profile.rules).rule_results := rfl

/-- Every individual rule evaluator yields a score at least `0`. -/
theorem evalRule_score_nonneg (rf : String → String → Option (List String))
    (ex : String → List ℚ) (ft : String) (gi : GrantInfo)
    (e : Option ExtractedInfo) (r : FilterRule) :
    0 ≤ (evalRule rf ex ft gi e r).score := by
  obtain ⟨nm, t, w, req⟩ := r
  cases t with
  | INCLUDE ks =>
    simp only [evalRule, applyIncludeFilter]
    split
    · exact le_refl 0
    · positivity
  | EXCLUDE ks =>
    simp only [evalRule, applyExcludeFilter]
    split <;> norm_num
  | REGEX pat =>
    simp only [evalRule, applyRegexFilter]
    cases rf pat ft with
    | some ms => simp only; exact le_min (by positivity) zero_le_one
    | none => simp only; exact le_refl 0
  | AMOUNT c =>
    cases e with
    | none => exact le_refl 0
    | some e' =>
      simp only [evalRule, applyAmountFilter]
      split
      · exact le_refl 0
      · split
        · exact le_refl 0
        · split
          · rename_i a _
            simp only [amountScore]
            cases hm : c.max with
            | some m => exact le_trans (by norm_num) (le_max_left _ _)
            | none => norm_num
          · exact le_refl 0
  | SECTOR => exact le_refl 0
  | DEPARTMENT ds =>
    simp only [evalRule, applyDepartmentFilter]
    split
    · exact le_refl 0
    · positivity

/-- Every individual rule evaluator yields a score at most `1`. -/
theorem evalRule_score_le_one (rf : String → String → Option (List String))
    (ex : String → List ℚ) (ft : String) (gi : GrantInfo)
    (e : Option ExtractedInfo) (r : FilterRule) :
    (evalRule rf ex ft gi e r).score ≤ 1 := by
  obtain ⟨nm, t, w, req⟩ := r
  cases t with
  | INCLUDE ks =>
    simp only [evalRule, applyIncludeFilter]
    split
    · exact zero_le_one
    · rename_i hks
      rw [div_le_one (Nat.cast_pos.mpr (List.length_pos.mpr hks))]
      exact_mod_cast List.length_filter_le _ ks
  | EXCLUDE ks =>
    simp only [evalRule, applyExcludeFilter]
    split <;> norm_num
  | REGEX pat =>
    simp only [evalRule, applyRegexFilter]
    cases rf pat ft with
    | some ms => simp only; exact min_le_right _ _
    | none => simp only; exact zero_le_one
  | AMOUNT c =>
    cases e with
    | none => exact zero_le_one
    | some e' =>
      simp only [evalRule, applyAmountFilter]
      split
      · exact zero_le_one
      · split
        · exact zero_le_one
        · split
          · rename_i a hfind
            have hrange := List.find?_some hfind
            simp only [amountScore]
            cases hm : c.max with
            | some m =>
              rw [hm] at hrange
              simp only [amountInRange, Bool.and_eq_true, decide_eq_true_eq] at hrange
              have hmm : c.min.getD 0 ≤ m := le_trans hrange.1 hrange.2
              refine max_le (by norm_num) ?_
              have hd : 0 ≤ |a - (c.min.getD 0 + m) / 2| / (m - c.min.getD 0) :=
                div_nonneg (abs_nonneg _) (by linarith)
              linarith
            | none => norm_num
          · exact zero_le_one
  | SECTOR => exact zero_le_one
  | DEPARTMENT ds =>
    simp only [evalRule, applyDepartmentFilter]
    split
    · exact zero_le_one
    · rename_i hds
      rw [div_le_one (Nat.cast_pos.mpr (List.length_pos.mpr hds))]
      exact_mod_cast List.length_filter_le _ ds

/-- The weighted numerator accumulated by the rule loop is nonnegative
whenever rule weights are nonnegative. -/
theorem evalRules_ws_nonneg (rf : String → String → Option (List String))
    (ex : String → List ℚ) (ft : String) (gi : GrantInfo)
    (e : Option ExtractedInfo) (rs : List FilterRule)
    (hw : ∀ r ∈ rs, 0 ≤ r.weight) :
    0 ≤ (evalRules rf ex ft gi e rs).weighted_score_sum := by
  induction rs with
  | nil => simp [evalRules]
  | cons r rs ih =>
    have hterm : 0 ≤ (if (evalRule rf ex ft gi e r).passed then
        (evalRule rf ex ft gi e r).score * r.weight else 0) := by
      split
      · exact mul_nonneg (evalRule_score_nonneg rf ex ft gi e r) (hw r (by simp))
      · exact le_refl 0
    exact add_nonneg hterm (ih fun x hx => hw x (by simp [hx]))

/-- The weighted numerator never exceeds the total weight when rule
weights are nonnegative (each per-rule score being at most `1`). -/
theorem evalRules_ws_le_tw (rf : String → String → Option (List String))
    (ex : String → List ℚ) (ft : String) (gi : GrantInfo)
    (e : Option ExtractedInfo) (rs : List FilterRule)
    (hw : ∀ r ∈ rs, 0 ≤ r.weight) :
    (evalRules rf ex ft gi e rs).weighted_score_sum ≤
      (evalRules rf ex ft gi e rs).total_weight := by
  induction rs with
  | nil => simp [evalRules]
  | cons r rs ih =>
    have hterm : (if (evalRule rf ex ft gi e r).passed then
        (evalRule rf ex ft gi e r).score * r.weight else 0) ≤ r.weight := by
      split
      · exact mul_le_of_le_one_left (hw r (by simp)) (evalRule_score_le_one rf ex ft gi e r)
      · exact hw r (by simp)
    exact add_le_add hterm (ih fun x hx => hw x (by simp [hx]))

/-- The aggregate `total_score` is nonnegative whenever rule weights
are nonnegative. -/
theorem evaluateGrant_total_score_nonneg (rf : String → String → Option (List String))
    (ex : String → List ℚ) (profile : FilterProfile) (gi : GrantInfo)
    (e : Option ExtractedInfo) (hw : ∀ r ∈ profile.rules, 0 ≤ r.weight) :
    0 ≤ (evaluateGrant rf ex profile gi e).total_score := by
  rw [evaluateGrant_total_score_def]
  split
  · rename_i hpos
    exact div_nonneg (evalRules_ws_nonneg rf ex (fullText gi e) gi e profile.rules hw)
      (le_of_lt hpos)
  · exact le_refl 0

/-- The aggregate `total_score` is at most `1` whenever rule weights
are nonnegative. -/
theorem evaluateGrant_total_score_le_one (rf : String → String → Option (List String))
    (ex : String → List ℚ) (profile : FilterProfile) (gi : GrantInfo)
    (e : Option ExtractedInfo) (hw : ∀ r ∈ profile.rules, 0 ≤ r.weight) :
    (evaluateGrant rf ex profile gi e).total_score ≤ 1 := by
  rw [evaluateGrant_total_score_def]
  split
  · rename_i hpos
    rw [div_le_one hpos]
    exact evalRules_ws_le_tw rf ex (fullText gi e) gi e profile.rules hw
  · exact zero_le_one

/-- Sum of a list of nonnegative rationals is zero only when every entry
is zero. -/
theorem list_sum_eq_zero_of_nonneg {l : List ℚ} (h0 : ∀ x ∈ l, 0 ≤ x)
    (hs : l.sum = 0) : ∀ x ∈ l, x = 0 := by
  induction l with
  | nil => simp
  | cons a l ih =>
    have ha : 0 ≤ a := h0 a (by simp)
    have hl : 0 ≤ l.sum := List.sum_nonneg fun x hx => h0 x (by simp [hx])
    rw [List.sum_cons] at hs
    have ha0 : a = 0 := by linarith
    have hl0 : l.sum = 0 := by linarith
    intro x hx
    rcases List.mem_cons.mp hx with rfl | hx
    · exact ha0
    · exact ih (fun y hy => h0 y (by simp [hy])) hl0 x hx

/-- `evaluate_grant`'s aggregate score equals the spec's quotient
whenever rule weights are nonnegative (as the data model requires):
the source guards the division with `total_weight > 0` and returns
`0.0` otherwise, which coincides with the quotient because a zero total
of nonnegative weights forces every summand of the numerator to
vanish. -/
theorem evaluateGrant_total_score_eq (rf : String → String → Option (List String))
    (ex : String → List ℚ) (profile : FilterProfile) (gi : GrantInfo)
    (e : Option ExtractedInfo) (hw : ∀ r ∈ profile.rules, 0 ≤ r.weight) :
    (evaluateGrant rf ex profile gi e).total_score =
      ((profile.rules.filter
          fun r => (evalRule rf ex (fullText gi e) gi e r).passed).map
        fun r => (evalRule rf ex (fullText gi e) gi e r).score * r.weight).sum /
      (profile.rules.map FilterRule.weight).sum := by
  have htw := evalRules_total_weight rf ex (fullText gi e) gi e profile.rules
  have hws := evalRules_weighted_sum rf ex (fullText gi e) gi e profile.rules
  rw [evaluateGrant_total_score_def]
  by_cases hpos : 0 < (evalRules rf ex (fullText gi e) gi e profile.rules).total_weight
  · rw [if_pos hpos, htw, hws]
  · have hnn : 0 ≤ (profile.rules.map FilterRule.weight).sum :=
      List.sum_nonneg fun x hx => by
        obtain ⟨r, hr, rfl⟩ := List.mem_map.mp hx
        exact hw r hr
    have hzero : (profile.rules.map FilterRule.weight).sum = 0 := by
      rw [htw] at hpos
      exact le_antisymm (not_lt.mp hpos) hnn
    have hwz : ∀ r ∈ profile.rules, r.weight = 0 := by
      intro r hr
      exact list_sum_eq_zero_of_nonneg
        (fun x hx => by
          obtain ⟨r', hr', rfl⟩ := List.mem_map.mp hx
          exact hw r' hr')
        hzero r.weight (List.mem_map.mpr ⟨r, hr, rfl⟩)
    have hnum : ((profile.rules.filter
          fun r => (evalRule rf ex (fullText gi e) gi e r).passed).map
        fun r => (evalRule rf ex (fullText gi e) gi e r).score * r.weight).sum = 0 := by
      refine List.sum_eq_zero fun x hx => ?_
      obtain ⟨r, hr, rfl⟩ := List.mem_map.mp hx
      rw [hwz r (List.mem_of_mem_filter hr), mul_zero]
    rw [if_neg hpos, hnum, hzero, zero_div]

/-- `evaluate_grant`'s final decision is "all required rules passed"
conjoined with "total score at least the profile threshold". -/
theorem evaluateGrant_passed_eq (rf : String → String → Option (List String))
    (ex : String → List ℚ) (profile : FilterProfile) (gi : GrantInfo)
    (e : Option ExtractedInfo) :
    (evaluateGrant rf ex profile gi e).passed =
      (((profile.rules.filter fun r => r.required).all
          fun r => (evalRule rf ex (fullText gi e) gi e r).passed) &&
        decide (profile.min_score ≤ (evaluateGrant rf ex profile gi e).total_score)) := by
  rw [evaluateGrant_passed_def, required_ok_eq_all]

/-- Any failed required rule forces `passed = False`. -/
theorem passed_false_of_required_failed (rf : String → String → Option (List String))
    (ex : String → List ℚ) (profile : FilterProfile) (gi : GrantInfo)
    (e : Option ExtractedInfo) (r : FilterRule) (hmem : r ∈ profile.rules)
    (hreq : r.required = true)
    (hfail : (evalRule rf ex (fullText gi e) gi e r).passed = false) :
    (evaluateGrant rf ex profile gi e).passed = false := by
  rw [evaluateGrant_passed_eq]
  have hmemf : r ∈ profile.rules.filter fun r => r.required :=
    List.mem_filter.mpr ⟨hmem, hreq⟩
  have : ¬ ((profile.rules.filter fun r => r.required).all
      fun r => (evalRule rf ex (fullText gi e) gi e r).passed) = true := by
    intro hall
    have := List.all_eq_true.mp hall r hmemf
    rw [hfail] at this
    exact Bool.false_ne_true this
  simp [Bool.eq_false_iff.mpr this]

/-! ## Claim C1 -/

/-- C1.  For every profile (with the data model's nonnegative rule
weights) and every record, the aggregate score equals
`Σ(score × weight over passed rules) / Σ(all rule weights)`, and the
final decision is `(all required rules passed) AND (total_score ≥
min_score)`. -/
theorem rule_engine_weighted_aggregate (rf : String → String → Option (List String))
    (ex : String → List ℚ) (profile : FilterProfile) (gi : GrantInfo)
    (e : Option ExtractedInfo) (hw : ∀ r ∈ profile.rules, 0 ≤ r.weight) :
    (evaluateGrant rf ex profile gi e).total_score =
      ((profile.rules.filter
          fun r => (evalRule rf ex (fullText gi e) gi e r).passed).map
        fun r => (evalRule rf ex (fullText gi e) gi e r).score * r.weight).sum /
      (profile.rules.map FilterRule.weight).sum ∧
    (evaluateGrant rf ex profile gi e).passed =
      (((profile.rules.filter fun r => r.required).all
          fun r => (evalRule rf ex (fullText gi e) gi e r).passed) &&
        decide (profile.min_score ≤ (evaluateGrant rf ex profile gi e).total_score)) :=
  ⟨evaluateGrant_total_score_eq rf ex profile gi e hw,
   evaluateGrant_passed_eq rf ex profile gi e⟩

/-- Concrete instantiation of C1: the nonprofit-style two-rule profile
on a record whose text matches the include keyword. -/
def c1Profile : FilterProfile :=
  { name := "c1",
    rules := [{ name := "inc", filter_type := .INCLUDE ["fundación"],
                weight := 2, required := true },
              { name := "exc", filter_type := .EXCLUDE ["sociedad anónima"],
                weight := 1 }],
    min_score := 0.5 }

/-- Witness for C1 at a concrete profile and record. -/
theorem rule_engine_weighted_aggregate_witness :
    (evaluateGrant noRegex noNums c1Profile { title := "ayudas a una fundación" }
        none).total_score =
      ((c1Profile.rules.filter
          fun r => (evalRule noRegex noNums
            (fullText { title := "ayudas a una fundación" } none)
            { title := "ayudas a una fundación" } none r).passed).map
        fun r => (evalRule noRegex noNums
            (fullText { title := "ayudas a una fundación" } none)
            { title := "ayudas a una fundación" } none r).score * r.weight).sum /
      (c1Profile.rules.map FilterRule.weight).sum ∧
    (evaluateGrant noRegex noNums c1Profile { title := "ayudas a una fundación" }
        none).passed =
      (((c1Profile.rules.filter fun r => r.required).all
          fun r => (evalRule noRegex noNums
            (fullText { title := "ayudas a una fundación" } none)
            { title := "ayudas a una fundación" } none r).passed) &&
        decide (c1Profile.min_score ≤
          (evaluateGrant noRegex noNums c1Profile
            { title := "ayudas a una fundación" } none).total_score)) :=
  rule_engine_weighted_aggregate noRegex noNums c1Profile
    { title := "ayudas a una fundación" } none (by decide)

/-! ## Claim C2 -/

/-- C2.  A failed required rule vetoes the evaluation: `passed = False`
regardless of the computed total score. -/
theorem required_rule_veto (rf : String → String → Option (List String))
    (ex : String → List ℚ) (profile : FilterProfile) (gi : GrantInfo)
    (e : Option ExtractedInfo) (r : FilterRule) (hmem : r ∈ profile.rules)
    (hreq : r.required = true)
    (hfail : (evalRule rf ex (fullText gi e) gi e r).passed = false) :
    (evaluateGrant rf ex profile gi e).passed = false :=
  passed_false_of_required_failed rf ex profile gi e r hmem hreq hfail

/-- Profile for the C2 witness: a required include rule that will fail
next to an exclude rule that passes with full score, with a zero
threshold every total score clears. -/
def c2Profile : FilterProfile :=
  { name := "c2",
    rules := [{ name := "req_inc", filter_type := .INCLUDE ["fundación"],
                weight := 1, required := true },
              { name := "exc", filter_type := .EXCLUDE ["lucro"], weight := 1 }],
    min_score := 0 }

/-- Witness for C2: on `"ayudas generales"` the required include rule
fails while the total score still clears `min_score = 0`, and the
evaluation nevertheless returns `passed = false`. -/
theorem required_rule_veto_witness :
    (evaluateGrant noRegex noNums c2Profile { title := "ayudas generales" }
        none).passed = false ∧
    c2Profile.min_score ≤
      (evaluateGrant noRegex noNums c2Profile { title := "ayudas generales" }
        none).total_score :=
  ⟨required_rule_veto noRegex noNums c2Profile { title := "ayudas generales" } none
      { name := "req_inc", filter_type := .INCLUDE ["fundación"],
        weight := 1, required := true }
      (by decide) (by decide) (by decide),
   evaluateGrant_total_score_nonneg noRegex noNums c2Profile
      { title := "ayudas generales" } none
      (by intro r hr; fin_cases hr <;> norm_num)⟩

/-! ## Claim C8 -/

/-- C8.  An invalid regex pattern (one on which the `re` oracle raises,
i.e. returns `none`) makes exactly its own rule fail with score `0`,
while the evaluation — a total function in this embedding, so it cannot
raise — still produces one result per rule of the profile. -/
theorem invalid_regex_scored_zero (rf : String → String → Option (List String))
    (ex : String → List ℚ) (profile : FilterProfile) (gi : GrantInfo)
    (e : Option ExtractedInfo) (nm : String) (pat : String) (w : ℚ) (req : Bool)
    (hmem : ({ name := nm, filter_type := .REGEX pat, weight := w,
               required := req } : FilterRule) ∈ profile.rules)
    (hbad : rf pat (fullText gi e) = none) :
    (evalRule rf ex (fullText gi e) gi e
        { name := nm, filter_type := .REGEX pat, weight := w,
          required := req }).passed = false ∧
    (evalRule rf ex (fullText gi e) gi e
        { name := nm, filter_type := .REGEX pat, weight := w,
          required := req }).score = 0 ∧
    (evaluateGrant rf ex profile gi e).rule_results =
      profile.rules.map (evalRule rf ex (fullText gi e) gi e) :=
  ⟨by simp [evalRule, applyRegexFilter, hbad],
   by simp [evalRule, applyRegexFilter, hbad],
   by rw [evaluateGrant_rule_results_def, evalRules_results]⟩

/-- Profile for the C8 witness: an unbalanced-parenthesis regex rule
next to an ordinary include rule. -/
def c8Profile : FilterProfile :=
  { name := "c8",
    rules := [{ name := "bad_regex", filter_type := .REGEX "(", weight := 1 },
              { name := "inc", filter_type := .INCLUDE ["ayuda"], weight := 1 }],
    min_score := 0.5 }

/-- Witness for C8 with the always-raising regex oracle. -/
theorem invalid_regex_scored_zero_witness :
    (evalRule noRegex noNums (fullText { title := "ayuda x" } none)
        { title := "ayuda x" } none
        { name := "bad_regex", filter_type := .REGEX "(", weight := 1,
          required := false }).passed = false ∧
    (evalRule noRegex noNums (fullText { title := "ayuda x" } none)
        { title := "ayuda x" } none
        { name := "bad_regex", filter_type := .REGEX "(", weight := 1,
          required := false }).score = 0 ∧
    (evaluateGrant noRegex noNums c8Profile { title := "ayuda x" } none).rule_results =
      c8Profile.rules.map (evalRule noRegex noNums
        (fullText { title := "ayuda x" } none) { title := "ayuda x" } none) :=
  invalid_regex_scored_zero noRegex noNums c8Profile { title := "ayuda x" } none
    "bad_regex" "(" 1 false (by simp [c8Profile]) rfl

/-! ## Claim C9 -/

/-- C9.  With the data model's nonnegative weights (and some rule of
positive weight), the aggregate `total_score` lies in `[0, 1]`, because
every per-rule score does. -/
theorem total_score_unit_interval (rf : String → String → Option (List String))
    (ex : String → List ℚ) (profile : FilterProfile) (gi : GrantInfo)
    (e : Option ExtractedInfo) (hw : ∀ r ∈ profile.rules, 0 ≤ r.weight)
    (hpos : ∃ r ∈ profile.rules, 0 < r.weight) :
    0 ≤ (evaluateGrant rf ex profile gi e).total_score ∧
    (evaluateGrant rf ex profile gi e).total_score ≤ 1 :=
  ⟨evaluateGrant_total_score_nonneg rf ex profile gi e hw,
   evaluateGrant_total_score_le_one rf ex profile gi e hw⟩

/-- Witness for C9 on the concrete two-rule profile of C1. -/
theorem total_score_unit_interval_witness :
    0 ≤ (evaluateGrant noRegex noNums c1Profile { title := "becas" } none).total_score ∧
    (evaluateGrant noRegex noNums c1Profile { title := "becas" } none).total_score ≤ 1 :=
  total_score_unit_interval noRegex noNums c1Profile { title := "becas" } none
    (by intro r hr; fin_cases hr <;> norm_num)
    ⟨{ name := "inc", filter_type := .INCLUDE ["fundación"], weight := 2,
       required := true },
     by simp [c1Profile], by norm_num⟩

/-! ## Claim C10 -/

/-- Appending rules adds their accumulated total weight. -/
theorem evalRules_append_tw (rf : String → String → Option (List String))
    (ex : String → List ℚ) (ft : String) (gi : GrantInfo)
    (e : Option ExtractedInfo) (rs ts : List FilterRule) :
    (evalRules rf ex ft gi e (rs ++ ts)).total_weight =
      (evalRules rf ex ft gi e rs).total_weight +
        (evalRules rf ex ft gi e ts).total_weight := by
  induction rs with
  | nil => simp [evalRules]
  | cons r rs ih => simp [evalRules, ih]; ring

/-- Appending rules adds their accumulated weighted numerators. -/
theorem evalRules_append_ws (rf : String → String → Option (List String))
    (ex : String → List ℚ) (ft : String) (gi : GrantInfo)
    (e : Option ExtractedInfo) (rs ts : List FilterRule) :
    (evalRules rf ex ft gi e (rs ++ ts)).weighted_score_sum =
      (evalRules rf ex ft gi e rs).weighted_score_sum +
        (evalRules rf ex ft gi e ts).weighted_score_sum := by
  induction rs with
  | nil => simp [evalRules]
  | cons r rs ih => simp [evalRules, ih]; ring

/-- A lone `SECTOR` rule contributes its weight to the denominator and
nothing to the numerator. -/
theorem evalRules_sector_singleton (rf : String → String → Option (List String))
    (ex : String → List ℚ) (ft : String) (gi : GrantInfo)
    (e : Option ExtractedInfo) (nm : String) (w : ℚ) (req : Bool) :
    (evalRules rf ex ft gi e
        [{ name := nm, filter_type := .SECTOR, weight := w, required := req }]).total_weight = w ∧
    (evalRules rf ex ft gi e
        [{ name := nm, filter_type := .SECTOR, weight := w,
           required := req }]).weighted_score_sum = 0 := by
  constructor <;> simp [evalRules, evalRule]

/-- C10.  A `SECTOR` rule (enum variant with no evaluator), and an
`AMOUNT` rule evaluated without extracted amount data, never pass and
score `0`; their weight still enters the denominator, so appending such
a rule of positive weight to a profile with a positive weighted
numerator strictly lowers the total score, and marking one `required`
forces `passed = false` on every input. -/
theorem dead_rule_semantics (rf : String → String → Option (List String))
    (ex : String → List ℚ) :
    (∀ (ft : String) (gi : GrantInfo) (e : Option ExtractedInfo) (nm : String)
        (w : ℚ) (req : Bool),
      (evalRule rf ex ft gi e
          { name := nm, filter_type := .SECTOR, weight := w, required := req }).passed = false ∧
      (evalRule rf ex ft gi e
          { name := nm, filter_type := .SECTOR, weight := w, required := req }).score = 0) ∧
    (∀ (ft : String) (gi : GrantInfo) (nm : String) (c : AmountCriteria)
        (w : ℚ) (req : Bool),
      (evalRule rf ex ft gi none
          { name := nm, filter_type := .AMOUNT c, weight := w, required := req }).passed = false ∧
      (evalRule rf ex ft gi none
          { name := nm, filter_type := .AMOUNT c, weight := w, required := req }).score = 0) ∧
    (∀ (p : FilterProfile) (gi : GrantInfo) (e : Option ExtractedInfo) (nm : String)
        (w : ℚ) (req : Bool),
      (evalRules rf ex (fullText gi e) gi e
          (p.rules ++ [{ name := nm, filter_type := .SECTOR, weight := w,
                         required := req }])).total_weight =
        (evalRules rf ex (fullText gi e) gi e p.rules).total_weight + w ∧
      (0 < w →
        0 < (evalRules rf ex (fullText gi e) gi e p.rules).weighted_score_sum →
        0 < (evalRules rf ex (fullText gi e) gi e p.rules).total_weight →
        (evaluateGrant rf ex
            { p with rules := p.rules ++ [{ name := nm, filter_type := .SECTOR,
                                            weight := w, required := req }] }
            gi e).total_score <
          (evaluateGrant rf ex p gi e).total_score)) ∧
    (∀ (p : FilterProfile) (gi : GrantInfo) (e : Option ExtractedInfo) (r : FilterRule),
      r ∈ p.rules → r.required = true → r.filter_type = .SECTOR →
      (evaluateGrant rf ex p gi e).passed = false) ∧
    (∀ (p : FilterProfile) (gi : GrantInfo) (r : FilterRule) (c : AmountCriteria),
      r ∈ p.rules → r.required = true → r.filter_type = .AMOUNT c →
      (evaluateGrant rf ex p gi none).passed = false) := by
  refine ⟨fun ft gi e nm w req => ⟨rfl, rfl⟩,
          fun ft gi nm c w req => ⟨rfl, rfl⟩, ?_, ?_, ?_⟩
  · intro p gi e nm w req
    have htw := evalRules_append_tw rf ex (fullText gi e) gi e p.rules
      [{ name := nm, filter_type := .SECTOR, weight := w, required := req }]
    have hws := evalRules_append_ws rf ex (fullText gi e) gi e p.rules
      [{ name := nm, filter_type := .SECTOR, weight := w, required := req }]
    have hsec := evalRules_sector_singleton rf ex (fullText gi e) gi e nm w req
    rw [hsec.1] at htw
    rw [hsec.2, add_zero] at hws
    refine ⟨htw, fun hw hwspos htwpos => ?_⟩
    have hts : (evaluateGrant rf ex
        { p with rules := p.rules ++ [{ name := nm, filter_type := .SECTOR,
                                        weight := w, required := req }] }
        gi e).total_score =
        (evalRules rf ex (fullText gi e) gi e p.rules).weighted_score_sum /
          ((evalRules rf ex (fullText gi e) gi e p.rules).total_weight + w) := by
      rw [evaluateGrant_total_score_def]
      simp only [htw, hws]
      rw [if_pos (by linarith)]
    have hts' : (evaluateGrant rf ex p gi e).total_score =
        (evalRules rf ex (fullText gi e) gi e p.rules).weighted_score_sum /
          (evalRules rf ex (fullText gi e) gi e p.rules).total_weight := by
      rw [evaluateGrant_total_score_def, if_pos htwpos]
    rw [hts, hts']
    exact div_lt_div_of_pos_left hwspos htwpos (by linarith)
  · intro p gi e r hmem hreq hft
    refine passed_false_of_required_failed rf ex p gi e r hmem hreq ?_
    obtain ⟨nm, t, w, req⟩ := r
    simp only at hft
    subst hft
    rfl
  · intro p gi r c hmem hreq hft
    refine passed_false_of_required_failed rf ex p gi none r hmem hreq ?_
    obtain ⟨nm, t, w, req⟩ := r
    simp only at hft
    subst hft
    rfl

/-- Profile for the C10 witness: one exclude rule that passes with full
score `1`. -/
def c10Profile : FilterProfile :=
  { name := "c10",
    rules := [{ name := "exc", filter_type := .EXCLUDE ["lucro"], weight := 1 }],
    min_score := 0.5 }

/-- Witness for C10: appending a weight-`1` `SECTOR` rule to the
one-rule profile strictly lowers the concrete total score. -/
theorem dead_rule_semantics_witness :
    (evaluateGrant noRegex noNums
        { c10Profile with rules := c10Profile.rules ++
            [{ name := "sec", filter_type := .SECTOR, weight := 1,
               required := false }] }
        { title := "becas" } none).total_score <
      (evaluateGrant noRegex noNums c10Profile { title := "becas" } none).total_score := by
  have hfound : (["lucro"].filter fun kw =>
      pyContains (strToLower kw) (strToLower (fullText { title := "becas" } none))) = [] := by
    decide
  have hpassed : (evalRule noRegex noNums (fullText { title := "becas" } none)
      { title := "becas" } none
      { name := "exc", filter_type := .EXCLUDE ["lucro"], weight := 1,
        required := false }).passed = true := by decide
  have hscore : (evalRule noRegex noNums (fullText { title := "becas" } none)
      { title := "becas" } none
      { name := "exc", filter_type := .EXCLUDE ["lucro"], weight := 1,
        required := false }).score = 1 := by
    simp [evalRule, applyExcludeFilter, hfound]
  have hws : 0 < (evalRules noRegex noNums (fullText { title := "becas" } none)
      { title := "becas" } none c10Profile.rules).weighted_score_sum := by
    show 0 < (evalRules noRegex noNums (fullText { title := "becas" } none)
      { title := "becas" } none
      [{ name := "exc", filter_type := .EXCLUDE ["lucro"], weight := 1,
         required := false }]).weighted_score_sum
    simp [evalRules, hpassed, hscore]
  have htw : 0 < (evalRules noRegex noNums (fullText { title := "becas" } none)
      { title := "becas" } none c10Profile.rules).total_weight := by
    show 0 < (evalRules noRegex noNums (fullText { title := "becas" } none)
      { title := "becas" } none
      [{ name := "exc", filter_type := .EXCLUDE ["lucro"], weight := 1,
         required := false }]).total_weight
    simp [evalRules]
  exact ((dead_rule_semantics noRegex noNums).2.2.1 c10Profile { title := "becas" }
    none "sec" 1 false).2 (by norm_num) hws htw

/-! ## Claim C4 -/

/-- C4.  The retry backoff is `min(base × 2^(attempt-1), max_delay)`,
non-decreasing in the attempt number, and never above `max_delay`. -/
theorem backoff_exponential_capped (base maxD a b : ℕ) (h1 : 1 ≤ a) (hab : a ≤ b) :
    calculateRetryDelay base maxD a = Min.min (base * 2 ^ (a - 1)) maxD ∧
    calculateRetryDelay base maxD a ≤ calculateRetryDelay base maxD b ∧
    calculateRetryDelay base maxD a ≤ maxD := by
  refine ⟨rfl, ?_, min_le_right _ _⟩
  refine min_le_min ?_ (le_refl _)
  exact Nat.mul_le_mul (le_refl base)
    (Nat.pow_le_pow_right (by norm_num) (Nat.sub_le_sub_right hab 1))

/-- Witness for C4 with the service's `base_delay = 2`,
`max_delay = 60` at attempts `1 ≤ 3`. -/
theorem backoff_exponential_capped_witness :
    calculateRetryDelay 2 60 1 = Min.min (2 * 2 ^ (1 - 1)) 60 ∧
    calculateRetryDelay 2 60 1 ≤ calculateRetryDelay 2 60 3 ∧
    calculateRetryDelay 2 60 1 ≤ 60 :=
  backoff_exponential_capped 2 60 1 3 (by decide) (by decide)

/-! ## Claim C3 -/

/-- Transport behaviour for the C3 counterexample: a `503` on attempt 1,
then a `200` on attempt 2. -/
def c3Outcome : ℕ → TransportOutcome :=
  fun a => if a = 1 then .response 503 else .response 200

/-- C3 counterexample.  A delivery that takes two attempts (a retryable
`503`, then a successful `200`) leaves exactly ONE `webhook_history`
row — the single row created before the loop, mutated in place (its
`next_retry_delay` still carries attempt 1's backoff and its
`attempt_number` was last written by the failing attempt) — not one row
per attempt as the claim states, so a two-attempt delivery does not
yield two history records. -/
theorem delivery_history_not_per_attempt :
    (sendGrantWithRetry c3Outcome true "BDNS-1" 3 []).1 = true ∧
    (sendGrantWithRetry c3Outcome true "BDNS-1" 3 []).2 =
      [{ grant_id := "BDNS-1", attempt_number := 1, max_retries := 3,
         status := "success", http_status_code := some 200,
         next_retry_delay := some 2 }] ∧
    (sendGrantWithRetry c3Outcome true "BDNS-1" 3 []).2.length = 1 ∧
    (1 : ℕ) ≠ 2 := by
  refine ⟨rfl, ?_, rfl, by decide⟩
  rfl

/-- C3 as amended.  Every call of `send_grant_with_retry` on an existing
grant appends exactly one history row, whatever the number of attempts;
rows of earlier deliveries are never modified (the table grows by one
row per delivery, and the old prefix is preserved verbatim). -/
theorem delivery_history_one_row_per_send (outcome : ℕ → TransportOutcome)
    (grantId : String) (maxR : ℕ) (history : List WebhookHistory) :
    (sendGrantWithRetry outcome true grantId maxR history).2.length =
      history.length + 1 ∧
    (sendGrantWithRetry outcome true grantId maxR history).2.take history.length =
      history := by
  have hsend : (sendGrantWithRetry outcome true grantId maxR history).2 =
      history ++ [(sendLoop outcome maxR maxR 1
        { grant_id := grantId, attempt_number := 1, max_retries := maxR,
          status := "pending" }).2] := rfl
  rw [hsend]
  exact ⟨by simp, List.take_left _ _⟩

/-! ## Claim C6 -/

/-- Spec-side definition for C6, following the spec's words: the
document URL is "the first non-empty candidate" in a fixed priority
list. -/
def specFirstNonEmpty : List (Option String) → Option String
  | [] => none
  | c :: cs =>
    match c with
    | some s => if s ≠ "" then some s else specFirstNonEmpty cs
    | none => specFirstNonEmpty cs

/-- A constructed BDNS document URL is never the empty string. -/
theorem bdnsDocUrl_ne_empty (doc : BDNSDocument) : bdnsDocUrl doc ≠ "" := by
  intro h
  have hd : (bdnsDocUrl doc).data = [] := by rw [h]
  rw [bdnsDocUrl] at hd
  rw [String.data_append] at hd
  simp at hd

/-- C6.  The normalizer's PDF-URL resolution is exactly the spec's
priority chain: the first non-empty candidate among (1) the first
attachment's constructed URL, (2) the first announcement's URL, (3) the
regulatory-basis URL. -/
theorem pdf_url_priority_chain (d : BDNSConvocatoriaDetail) :
    resolvePdfUrl d = specFirstNonEmpty
      [d.documentos.head?.map bdnsDocUrl,
       d.anuncios.head?.bind BDNSAnnouncement.url,
       d.urlBasesReguladoras] := by
  obtain ⟨code, desc, fin, tb, ab, docs, anns, ub⟩ := d
  cases docs with
  | cons doc ds =>
    simp [resolvePdfUrl, specFirstNonEmpty, bdnsDocUrl_ne_empty doc]
  | nil =>
    cases anns with
    | cons a as =>
      cases ha : a.url with
      | some u =>
        by_cases hu : u = "" <;>
          cases ub <;>
            simp [resolvePdfUrl, specFirstNonEmpty, ha, hu]
      | none =>
        cases ub <;> simp [resolvePdfUrl, specFirstNonEmpty, ha]
    | nil =>
      cases ub <;> simp [resolvePdfUrl, specFirstNonEmpty]

/-! ## Claims C5 and C7: counter bookkeeping of the capture loops

The claim's per-record categories, read off the BDNS loop: a record is
an error (detail fetch failed), accepted (nonprofit), or rejected
(fetched fine but not nonprofit); accepted records split into new,
updated and skipped-unchanged by the dedup lookup and merge
predicate. -/

/-- The `stop_processing` flag, once set, freezes every acceptance
counter: later entries of the page only bump `total_fetched` (and
`total_errors` on a parse failure), and the flag stays set. -/
theorem placspEntryStep_stopped (rf : String → String → Option (List String))
    (ex : String → List ℚ) (cutoff : ℤ) (s : CaptureStats) (e : PLACSPEntry) :
    (placspEntryStep rf ex cutoff (s, true) e).1.total_nonprofit = s.total_nonprofit ∧
    (placspEntryStep rf ex cutoff (s, true) e).1.total_new = s.total_new ∧
    (placspEntryStep rf ex cutoff (s, true) e).1.total_updated = s.total_updated ∧
    (placspEntryStep rf ex cutoff (s, true) e).1.total_skipped = s.total_skipped ∧
    (placspEntryStep rf ex cutoff (s, true) e).2 = true := by
  cases e with
  | parseFailure => simp [placspEntryStep]
  | parsed d => simp [placspEntryStep]

/-- A PLACSP feed for the stale-record counterexamples: page one holds
a stale entry followed by a fresh one, page two a further fresh
entry. -/
def c7Feed : List (List PLACSPEntry) :=
  [[.parsed { id := some "1", title := "contrato viejo", updated := some (some 0) },
    .parsed { id := some "2", title := "contrato de servicios",
              updated := some (some 10) }],
   [.parsed { id := some "3", title := "contrato nuevo", updated := some (some 10) }]]

/-- C7 counterexample.  On `c7Feed` (page one: stale entry then fresh
entry; page two: fresh entry; cutoff `5`) the run stops after page one:
`pages_processed = 1` although a next page existed and the page was not
all-stale, and the fresh entry following the stale one on page one is
counted nowhere (`nonprofit = skipped = errors = new = 0` while
`fetched = 2`), i.e. it was never evaluated or saved — the scan ended on
the first stale record, not on consecutive stale pages. -/
theorem stale_record_scan_counterexample :
    (captureRecentGrantsPLACSP noRegex noNums 5 c7Feed 10).pages_processed = 1 ∧
    (captureRecentGrantsPLACSP noRegex noNums 5 c7Feed 10).total_fetched = 2 ∧
    (captureRecentGrantsPLACSP noRegex noNums 5 c7Feed 10).total_nonprofit = 0 ∧
    (captureRecentGrantsPLACSP noRegex noNums 5 c7Feed 10).total_skipped = 0 ∧
    (captureRecentGrantsPLACSP noRegex noNums 5 c7Feed 10).total_errors = 0 ∧
    (captureRecentGrantsPLACSP noRegex noNums 5 c7Feed 10).total_new = 0 ∧
    c7Feed.length = 2 := by
  exact ⟨rfl, rfl, rfl, rfl, rfl, rfl, rfl⟩

/-- C7 as amended.  One stale record ends the scan: (1) with the
`stop_processing` flag set, the rest of the page contributes nothing to
the acceptance counters and the flag never resets; (2) any parsed entry
older than the cutoff sets the flag; (3) a page whose fold sets the
flag is the last page the loop processes. -/
theorem stale_record_ends_scan (rf : String → String → Option (List String))
    (ex : String → List ℚ) (cutoff : ℤ) :
    (∀ (s : CaptureStats) (entries : List PLACSPEntry),
      (entries.foldl (placspEntryStep rf ex cutoff) (s, true)).1.total_nonprofit =
        s.total_nonprofit ∧
      (entries.foldl (placspEntryStep rf ex cutoff) (s, true)).1.total_new =
        s.total_new ∧
      (entries.foldl (placspEntryStep rf ex cutoff) (s, true)).1.total_updated =
        s.total_updated ∧
      (entries.foldl (placspEntryStep rf ex cutoff) (s, true)).1.total_skipped =
        s.total_skipped ∧
      (entries.foldl (placspEntryStep rf ex cutoff) (s, true)).2 = true) ∧
    (∀ (s : CaptureStats) (stop : Bool) (d : PLACSPData) (t : ℤ),
      d.updated = some (some t) → t < cutoff →
      (placspEntryStep rf ex cutoff (s, stop) (.parsed d)).2 = true) ∧
    (∀ (pages : List (List PLACSPEntry)) (fuel idx : ℕ) (s : CaptureStats),
      pages.getD idx [] ≠ [] →
      ((pages.getD idx []).foldl (placspEntryStep rf ex cutoff)
          ({ s with pages_processed := s.pages_processed + 1 }, false)).2 = true →
      placspLoop rf ex cutoff pages (fuel + 1) idx s =
        ((pages.getD idx []).foldl (placspEntryStep rf ex cutoff)
          ({ s with pages_processed := s.pages_processed + 1 }, false)).1) := by
  refine ⟨?_, ?_, ?_⟩
  · intro s entries
    induction entries generalizing s with
    | nil => exact ⟨rfl, rfl, rfl, rfl, rfl⟩
    | cons e es ih =>
      obtain ⟨hn, hw, hu, hsk, hstop⟩ := placspEntryStep_stopped rf ex cutoff s e
      rw [List.foldl_cons]
      have hx : placspEntryStep rf ex cutoff (s, true) e =
          ((placspEntryStep rf ex cutoff (s, true) e).1, true) := by
        conv_lhs => rw [show placspEntryStep rf ex cutoff (s, true) e =
          ((placspEntryStep rf ex cutoff (s, true) e).1,
           (placspEntryStep rf ex cutoff (s, true) e).2) from rfl]
        rw [hstop]
      rw [hx]
      obtain ⟨g1, g2, g3, g4, g5⟩ := ih ((placspEntryStep rf ex cutoff (s, true) e).1)
      exact ⟨by rw [g1, hn], by rw [g2, hw], by rw [g3, hu], by rw [g4, hsk], g5⟩
  · intro s stop d t hupd ht
    dsimp only [placspEntryStep]
    rw [hupd]
    simp [ht]
  · intro pages fuel idx s hne hstop
    rw [placspLoop]
    rw [if_neg hne]
    dsimp only
    rw [if_pos hstop]

/-- Witness for C7's amended statement: the flag-setting part applied
to the concrete stale entry, and the loop-stopping part applied to
`c7Feed` at its first page. -/
theorem stale_record_ends_scan_witness :
    (placspEntryStep noRegex noNums 5 (({} : CaptureStats), false)
        (.parsed { id := some "1", title := "contrato viejo",
                   updated := some (some 0) })).2 = true ∧
    placspLoop noRegex noNums 5 c7Feed 10 0 {} =
      ((c7Feed.getD 0 []).foldl (placspEntryStep noRegex noNums 5)
        ({ ({} : CaptureStats) with
            pages_processed := ({} : CaptureStats).pages_processed + 1 },
         false)).1 :=
  ⟨(stale_record_ends_scan noRegex noNums 5).2.1 {} false
      { id := some "1", title := "contrato viejo", updated := some (some 0) } 0
      rfl (by decide),
   (stale_record_ends_scan noRegex noNums 5).2.2 c7Feed 9 0 {}
      (by decide) (by decide)⟩

end Subvenciones
